import Mathlib

/-!
Shallow embedding of the HS110 Prometheus exporter's protocol core
(`hs110exporter.py`, class `HS110data`).

Modelling conventions:
* Python `bytes` and latin-1 strings are `List Nat` with entries < 256
  (latin-1 maps bytes and one-character codepoints bijectively).
* Python exceptions that the code distinguishes become the `PyErr` type;
  `dpcontracts` `@require` violations (the spec's `InvalidInput`) are
  `PyErr.preconditionError` (dpcontracts raises `PreconditionError`,
  a subclass of `AssertionError`, hence NOT caught by `except ValueError`).
* `json.loads` (standard library, not repository code) is an explicit
  parameter `parse : List Nat → Option PyJson` of `receive`/`send`:
  `none` models a raised `ValueError`, `some j` the parsed document.
* The TCP socket is abstracted by a `TransportEvent`: either the
  connect/send/recv sequence raised `socket.error`, or it succeeded and
  `recv` returned the given reply bytes.  Whether `sock_tcp.close()` was
  executed on the run is recorded in `SendResult.socketClosed`
  (the source calls `close` only on line 192, after a successful `recv`
  and before `receive`; there is no `finally`).
* `sys.exit` on retry exhaustion is the `SendOutcome.fatal` result;
  exceptions that escape `send` are `SendOutcome.raised`.
-/

namespace HS110

/-- JSON documents as returned by `json.loads`; numeric leaves are
restricted to the integers, which covers every value the device protocol
and the code's own test payloads use. -/
inductive PyJson where
  | null
  | bool (b : Bool)
  | num (n : Int)
  | str (s : String)
  | arr (xs : List PyJson)
  | obj (kvs : List (String × PyJson))

/-- The Python exception classes that `hs110exporter.py` tells apart:
`preconditionError` is dpcontracts' `PreconditionError` (an
`AssertionError`), the others are the builtin exception types. -/
inductive PyErr where
  | preconditionError
  | valueError
  | keyError
  | typeError
  deriving DecidableEq

/-- Line 15: `SOCKET_RETRY = 100`. -/
def SOCKET_RETRY : Int := 100

/-- Line 72: `self.__hs110_key = 171` — the fixed initial cipher key. -/
def hs110_key : Nat := 171

/-- Line 87: `string.encode('latin-1', 'replace')` replaces any codepoint
that does not fit one byte with `'?'` (63). -/
def latin1Replace (c : Nat) : Nat := if c < 256 then c else 63

/-- Lines 87-90 of `HS110data.__encrypt`: the autokey loop
`a = key ^ i; key = a; result += bytes([a])`. -/
def encryptLoop : Nat → List Nat → List Nat
  | _, [] => []
  | key, i :: rest => (key ^^^ i) :: encryptLoop (key ^^^ i) rest

/-- Lines 103-106 of `HS110data.__decrypt`: the autokey loop
`a = key ^ i; key = i; result += bytes([a])`. -/
def decryptLoop : Nat → List Nat → List Nat
  | _, [] => []
  | key, i :: rest => (key ^^^ i) :: decryptLoop i rest

/-- `HS110data.__encrypt` (lines 79-91).  The `@require` rejects an empty
string (`PreconditionError`); then `bytes([len(string)])` raises
`ValueError` whenever the length does not fit in one byte (Python:
"bytes must be in range(0, 256)"); otherwise the 4-byte header
`b"\x00\x00\x00" + bytes([len])` is followed by the autokey stream. -/
def encrypt (s : List Nat) : Except PyErr (List Nat) :=
  if s.length = 0 then Except.error PyErr.preconditionError
  else if 256 ≤ s.length then Except.error PyErr.valueError
  else Except.ok (0 :: 0 :: 0 :: s.length :: encryptLoop hs110_key (s.map latin1Replace))

/-- `HS110data.__decrypt` (lines 93-107).  The `@require` (line 95-96)
demands `len(data) > 3 and data[0:3] == b"\x00\x00\x00"`; the body strips
the first 4 bytes (`data = data[4:]`) and runs the autokey loop. -/
def decrypt (data : List Nat) : Except PyErr (List Nat) :=
  if data.length > 3 ∧ data.take 3 = [0, 0, 0] then
    Except.ok (decryptLoop hs110_key (data.drop 4))
  else Except.error PyErr.preconditionError

/-- The `self.__keyname` table built in `__init__` (lines 53-66): logical
field name to on-wire field name, per hardware version; a missing key is
a `KeyError` (`none`). -/
def keyname (hw item : String) : Option String :=
  if hw = "h1" then
    if item = "current" then some "current"
    else if item = "voltage" then some "voltage"
    else if item = "power" then some "power"
    else if item = "total" then some "total"
    else none
  else if hw = "h2" then
    if item = "current" then some "current_ma"
    else if item = "voltage" then some "voltage_mv"
    else if item = "power" then some "power_mw"
    else if item = "total" then some "total_wh"
    else none
  else none

/-- `HS110data.__empty_data` (lines 119-132): the all-zero document keyed
by the current hardware version's on-wire names; `none` models the
`KeyError` a name outside `{h1, h2}` would raise. -/
def empty_data (hw : String) : Option PyJson :=
  match keyname hw "current", keyname hw "voltage", keyname hw "power", keyname hw "total" with
  | some c, some v, some p, some t =>
    some (PyJson.obj [("emeter", PyJson.obj [("get_realtime", PyJson.obj
      [(c, PyJson.num 0), (v, PyJson.num 0), (p, PyJson.num 0), (t, PyJson.num 0),
       ("err_code", PyJson.num 0)])])])
  | _, _, _, _ => none

/-- The mutable attributes of an `HS110data` instance (the `__keyname`
table and `__hs110_key` are constants and live at module level here). -/
structure HS110State where
  hardware : String
  received_data : PyJson
  ip : String
  port : Int
  socket_counter : Int

/-- `HS110data.__init__` (lines 43-77).  The `@require` contracts demand
`hardware_version ∈ {'h1', 'h2'}` and `0 ≤ port ≤ 65535` (`none` on
violation); `valid_ip`, which defers to the operating system's
`inet_pton`, is abstracted away and the ip string carried opaquely. -/
def HS110init (hardware_version ip : String) (port : Int) : Option HS110State :=
  if (hardware_version = "h1" ∨ hardware_version = "h2") ∧ 0 ≤ port ∧ port ≤ 65535 then
    (empty_data hardware_version).map fun d =>
      { hardware := hardware_version, received_data := d, ip := ip, port := port,
        socket_counter := SOCKET_RETRY }
  else none

/-- `HS110data.reset_data` (lines 176-178):
`self.__received_data = self.__empty_data()`. -/
def reset_data (st : HS110State) : Option HS110State :=
  (empty_data st.hardware).map fun d => { st with received_data := d }

/-- Python's subscript `v[k]` for a string key on a `json.loads` result:
key lookup on a dict (`KeyError` when absent), `TypeError` on every
non-dict value. -/
def pySubscript (v : PyJson) (k : String) : Except PyErr PyJson :=
  match v with
  | PyJson.obj kvs =>
    match kvs.find? (fun kv => kv.1 == k) with
    | some kv => Except.ok kv.2
    | none => Except.error PyErr.keyError
  | _ => Except.error PyErr.typeError

/-- Python's `s in v` for a string `s` against a `json.loads` value:
key membership on a dict, element equality on a list (a non-string
element simply compares unequal to `s`), substring test on a string,
`TypeError` otherwise. -/
def pyContains (v : PyJson) (s : String) : Except PyErr Bool :=
  match v with
  | PyJson.obj kvs => Except.ok (kvs.any (fun kv => kv.1 == s))
  | PyJson.arr xs =>
    Except.ok (xs.any (fun x => match x with | PyJson.str t => t == s | _ => false))
  | PyJson.str t => Except.ok (if s.length = 0 then true else (t.splitOn s).length > 1)
  | _ => Except.error PyErr.typeError

/-- Python's `float(v)` on a `json.loads` value, with the integral result
kept as an integer: numbers convert, booleans convert to 0/1, strings
parse (`ValueError` otherwise), everything else is a `TypeError`. -/
def pyFloat (v : PyJson) : Except PyErr Int :=
  match v with
  | PyJson.num n => Except.ok n
  | PyJson.bool b => Except.ok (if b then 1 else 0)
  | PyJson.str s => match s.toInt? with | some n => Except.ok n | none => Except.error PyErr.valueError
  | _ => Except.error PyErr.typeError

/-- `HS110data.get_data` (lines 155-170):
`float(self.__received_data["emeter"]["get_realtime"][self.__keyname[self.__hardware][item]])`,
re-raising `KeyError` with a descriptive message (still a `KeyError` to
the caller); `TypeError`/`ValueError` from the lookups or the `float`
conversion propagate unchanged. -/
def get_data (st : HS110State) (item : String) : Except PyErr Int :=
  match keyname st.hardware item with
  | none => Except.error PyErr.keyError
  | some k =>
    match pySubscript st.received_data "emeter" with
    | Except.error e => Except.error e
    | Except.ok em =>
      match pySubscript em "get_realtime" with
      | Except.error e => Except.error e
      | Except.ok rt =>
        match pySubscript rt k with
        | Except.error e => Except.error e
        | Except.ok v => pyFloat v

/-- `HS110data.get_connection_info` (lines 172-174). -/
def get_connection_info (st : HS110State) : String :=
  "HS110 connection: " ++ st.ip ++ ":" ++ toString st.port

/-- `HS110data.receive` (lines 134-147).  The `@require` (lines 135-136)
checks the frame header; `json.loads(self.__decrypt(data))` is wrapped in
`try/except Exception`, re-raised as `ValueError` — the state assignment
does not happen in that case.  The variant-detection lines 144-147 run
AFTER `self.__received_data` has been replaced, and their subscripts are
outside any handler, so a structurally deficient document leaves the
malformed payload stored and lets `KeyError`/`TypeError` escape.
An error result carries the instance state at the moment of the raise. -/
def receive (parse : List Nat → Option PyJson) (st : HS110State) (data : List Nat) :
    Except (PyErr × HS110State) HS110State :=
  if data.length > 3 ∧ data.take 3 = [0, 0, 0] then
    match parse (decryptLoop hs110_key (data.drop 4)) with
    | none => Except.error (PyErr.valueError, st)
    | some j =>
      match pySubscript j "emeter" with
      | Except.error e => Except.error (e, { st with received_data := j })
      | Except.ok em =>
        match pySubscript em "get_realtime" with
        | Except.error e => Except.error (e, { st with received_data := j })
        | Except.ok rt =>
          match pyContains rt "current_ma" with
          | Except.error e => Except.error (e, { st with received_data := j })
          | Except.ok b =>
            Except.ok { st with received_data := j, hardware := if b then "h2" else "h1" }
  else Except.error (PyErr.preconditionError, st)

/-- The two observable outcomes of the socket session inside
`HS110data.send`: the connect/send/recv sequence raised `socket.error`,
or it succeeded and `recv(2048)` returned `reply`. -/
inductive TransportEvent where
  | sockError
  | ok (reply : List Nat)

/-- How a `send` call ends: a normal return, process termination via
`sys.exit` (line 214), or an exception escaping the method. -/
inductive SendOutcome where
  | normal
  | fatal (msg : String)
  | raised (e : PyErr)
  deriving DecidableEq

/-- Result of one `send` call: its outcome, the instance state afterwards,
and whether `sock_tcp.close()` (line 192) was executed during the call. -/
structure SendResult where
  outcome : SendOutcome
  state : HS110State
  socketClosed : Bool

/-- `HS110data.send` (lines 184-217).  On `socket.error` (path reached
without ever executing `close`): decrement `__socket_counter`, and
`sys.exit` when it reaches 0 (lines 204-214).  On transport success:
`close` runs, the counter is reset to `SOCKET_RETRY` (lines 192-193),
then `receive` is attempted; a `ValueError` from it is answered by
`reset_data` (lines 215-217), any other exception escapes. -/
def send (parse : List Nat → Option PyJson) (st : HS110State) (ev : TransportEvent) :
    SendResult :=
  match ev with
  | TransportEvent.sockError =>
    { outcome :=
        if st.socket_counter - 1 = 0 then
          SendOutcome.fatal "Connection retry limit 100 reached"
        else SendOutcome.normal
      state := { st with socket_counter := st.socket_counter - 1 }
      socketClosed := false }
  | TransportEvent.ok reply =>
    match receive parse { st with socket_counter := SOCKET_RETRY } reply with
    | Except.ok st2 =>
      { outcome := SendOutcome.normal, state := st2, socketClosed := true }
    | Except.error (PyErr.valueError, st2) =>
      match reset_data st2 with
      | some st3 => { outcome := SendOutcome.normal, state := st3, socketClosed := true }
      | none => { outcome := SendOutcome.raised PyErr.keyError, state := st2, socketClosed := true }
    | Except.error (e, st2) =>
      { outcome := SendOutcome.raised e, state := st2, socketClosed := true }

/-- State of the client after `k` consecutive transport-failure `send`
calls (the polling loop re-invoking `send` while the device stays
unreachable). -/
def iterateFail (parse : List Nat → Option PyJson) (st : HS110State) : Nat → HS110State
  | 0 => st
  | k + 1 => (send parse (iterateFail parse st k) TransportEvent.sockError).state

/-- Outcome of the `k`-th transport-failure `send` call (1-based) in a run
of consecutive failures starting from `st`. -/
def kthFailOutcome (parse : List Nat → Option PyJson) (st : HS110State) (k : Nat) :
    SendOutcome :=
  (send parse (iterateFail parse st (k - 1)) TransportEvent.sockError).outcome

/-- The value of `self.__empty_data()` when `self.__hardware == 'h1'`. -/
def emptyH1 : PyJson :=
  PyJson.obj [("emeter", PyJson.obj [("get_realtime", PyJson.obj
    [("current", PyJson.num 0), ("voltage", PyJson.num 0), ("power", PyJson.num 0),
     ("total", PyJson.num 0), ("err_code", PyJson.num 0)])])]

/-- The value of `self.__empty_data()` when `self.__hardware == 'h2'`. -/
def emptyH2 : PyJson :=
  PyJson.obj [("emeter", PyJson.obj [("get_realtime", PyJson.obj
    [("current_ma", PyJson.num 0), ("voltage_mv", PyJson.num 0), ("power_mw", PyJson.num 0),
     ("total_wh", PyJson.num 0), ("err_code", PyJson.num 0)])])]

theorem empty_data_h1 : empty_data "h1" = some emptyH1 := rfl

theorem empty_data_h2 : empty_data "h2" = some emptyH2 := rfl

/-- A `json.loads` stand-in that fails (raises `ValueError`) on every
document — e.g. the behaviour on a reply that decrypts to garbage. -/
def noParse : List Nat → Option PyJson := fun _ => none

/-- The freshly constructed client `HS110data(hardware_version='h2',
ip='192.168.1.53', port=9999)` (the source's default arguments). -/
def st0 : HS110State :=
  { hardware := "h2", received_data := emptyH2, ip := "192.168.1.53", port := 9999,
    socket_counter := 100 }

theorem st0_from_init : HS110init "h2" "192.168.1.53" 9999 = some st0 := rfl

/-- A client that already holds some previously decoded (non-empty)
sample, used to observe whether a failure path overwrites it. -/
def stPrior : HS110State :=
  { hardware := "h2", received_data := PyJson.str "prior", ip := "10.0.0.1", port := 9999,
    socket_counter := 100 }

/-- A client currently classified as hardware `h1`. -/
def stH1 : HS110State :=
  { hardware := "h1", received_data := emptyH1, ip := "192.168.1.53", port := 9999,
    socket_counter := 100 }

/-- The realtime object of a hardware-2 reply. -/
def rt2 : List (String × PyJson) := [("current_ma", PyJson.num 1110)]

/-- A well-formed hardware-2 reply document. -/
def jH2 : PyJson := PyJson.obj [("emeter", PyJson.obj [("get_realtime", PyJson.obj rt2)])]

/-- A `json.loads` stand-in that parses the empty decrypted string into
the hardware-2 document `jH2`. -/
def parseH2 : List Nat → Option PyJson := fun s => if s = [] then some jH2 else none

/-- The instance state at the moment `receive` returns or raises. -/
def errState : Except (PyErr × HS110State) HS110State → HS110State
  | Except.ok s => s
  | Except.error (_, s) => s

/-! Helper lemmas -/

theorem map_latin1_eq_self (s : List Nat) (h : ∀ c ∈ s, c < 256) :
    s.map latin1Replace = s := by
  induction s with
  | nil => rfl
  | cons a t ih =>
    simp only [List.map_cons]
    rw [show latin1Replace a = a from if_pos (h a (List.mem_cons_self a t)),
      ih (fun c hc => h c (List.mem_cons_of_mem a hc))]

theorem decryptLoop_encryptLoop (s : List Nat) : ∀ key, decryptLoop key (encryptLoop key s) = s := by
  induction s with
  | nil => intro key; rfl
  | cons a t ih =>
    intro key
    show (key ^^^ (key ^^^ a)) :: decryptLoop (key ^^^ a) (encryptLoop (key ^^^ a) t) = a :: t
    rw [ih, ← Nat.xor_assoc, Nat.xor_self, Nat.zero_xor]

theorem iterateFail_spec (parse : List Nat → Option PyJson) (st : HS110State) (k : Nat) :
    (iterateFail parse st k).received_data = st.received_data ∧
    (iterateFail parse st k).hardware = st.hardware ∧
    (iterateFail parse st k).ip = st.ip ∧
    (iterateFail parse st k).port = st.port ∧
    (iterateFail parse st k).socket_counter = st.socket_counter - k := by
  induction k with
  | zero =>
    refine ⟨rfl, rfl, rfl, rfl, ?_⟩
    show st.socket_counter = st.socket_counter - ((0 : Nat) : Int)
    simp
  | succ k ih =>
    obtain ⟨h1, h2, h3, h4, h5⟩ := ih
    refine ⟨h1, h2, h3, h4, ?_⟩
    show (iterateFail parse st k).socket_counter - 1 = st.socket_counter - (k + 1 : Nat)
    rw [h5]
    push_cast
    ring

theorem receive_fields (parse : List Nat → Option PyJson) (st : HS110State) (data : List Nat) :
    (errState (receive parse st data)).socket_counter = st.socket_counter ∧
    (errState (receive parse st data)).ip = st.ip ∧
    (errState (receive parse st data)).port = st.port := by
  unfold receive
  split
  · split
    · exact ⟨rfl, rfl, rfl⟩
    · split
      · exact ⟨rfl, rfl, rfl⟩
      · split
        · exact ⟨rfl, rfl, rfl⟩
        · split
          · exact ⟨rfl, rfl, rfl⟩
          · exact ⟨rfl, rfl, rfl⟩
  · exact ⟨rfl, rfl, rfl⟩

theorem reset_fields (st st3 : HS110State) (h : reset_data st = some st3) :
    st3.socket_counter = st.socket_counter ∧ st3.ip = st.ip ∧ st3.port = st.port := by
  unfold reset_data at h
  cases hE : empty_data st.hardware with
  | none => rw [hE] at h; exact absurd h (by simp)
  | some d =>
    rw [hE] at h
    have hd := Option.some.inj h
    rw [← hd]
    exact ⟨rfl, rfl, rfl⟩

theorem get_data_empty_zero (st : HS110State) (item : String)
    (hhw : st.hardware = "h1" ∨ st.hardware = "h2")
    (hitem : item = "current" ∨ item = "voltage" ∨ item = "power" ∨ item = "total")
    (hdata : empty_data st.hardware = some st.received_data) :
    get_data st item = Except.ok 0 := by
  rcases hhw with h | h
  · rw [h, empty_data_h1] at hdata
    have hd := Option.some.inj hdata
    rcases hitem with h3 | h3 | h3 | h3 <;> subst h3 <;>
      (unfold get_data; rw [h, ← hd]; rfl)
  · rw [h, empty_data_h2] at hdata
    have hd := Option.some.inj hdata
    rcases hitem with h3 | h3 | h3 | h3 <;> subst h3 <;>
      (unfold get_data; rw [h, ← hd]; rfl)

/-! Claim theorems, one per claim of the specification review -/

set_option maxRecDepth 4000 in
/-- Claim C1, counterexample: the round-trip does not hold for EVERY
non-empty single-byte string — on a 256-character plaintext `__encrypt`
raises `ValueError` (Python `bytes([256])` is out of range), so
`decode(encode(s))` is not `s` there. -/
theorem c1_counterexample :
    encrypt (List.replicate 256 97) = Except.error PyErr.valueError ∧
    ¬ Except.bind (encrypt (List.replicate 256 97)) decrypt
        = Except.ok (List.replicate 256 97) :=
  ⟨rfl, fun h => Except.noConfusion h⟩

/-- Claim C1, amended: for every non-empty single-byte plaintext of
length at most 255, decrypting the encryption returns the plaintext,
starting from the fixed initial key 171. -/
theorem c1_roundtrip (s : List Nat) (hne : s ≠ []) (hlen : s.length ≤ 255)
    (hbyte : ∀ c ∈ s, c < 256) :
    Except.bind (encrypt s) decrypt = Except.ok s := by
  have h0 : ¬ s.length = 0 := fun h => hne (List.length_eq_zero.mp h)
  have h1 : ¬ 256 ≤ s.length := by omega
  unfold encrypt
  rw [if_neg h0, if_neg h1, map_latin1_eq_self s hbyte]
  show decrypt (0 :: 0 :: 0 :: s.length :: encryptLoop hs110_key s) = Except.ok s
  unfold decrypt
  rw [if_pos ⟨by simp, rfl⟩]
  show Except.ok (decryptLoop hs110_key (encryptLoop hs110_key s)) = Except.ok s
  rw [decryptLoop_encryptLoop]

/-- Claim C1, witness: the round-trip at the concrete plaintext "hs". -/
theorem c1_roundtrip_witness :
    Except.bind (encrypt [104, 115]) decrypt = Except.ok [104, 115] :=
  c1_roundtrip [104, 115] (by decide) (by decide) (by decide)

/-- Claim C2: starting from a full retry budget of 100, a run of k ≤ 100
consecutive transport failures leaves the stored sample untouched, keeps
the counter in [0, 100], and the k-th call exits fatally exactly when
k = 100 (returning normally before that). -/
theorem c2_retry_exhaustion (parse : List Nat → Option PyJson) (st : HS110State)
    (h100 : st.socket_counter = 100) (k : Nat) (hk1 : 1 ≤ k) (hk2 : k ≤ 100) :
    (iterateFail parse st k).received_data = st.received_data ∧
    (iterateFail parse st k).socket_counter = 100 - (k : Int) ∧
    0 ≤ (iterateFail parse st k).socket_counter ∧
    (iterateFail parse st k).socket_counter ≤ 100 ∧
    (kthFailOutcome parse st k = SendOutcome.fatal "Connection retry limit 100 reached"
      ↔ k = 100) ∧
    (k < 100 → kthFailOutcome parse st k = SendOutcome.normal) := by
  obtain ⟨h1, -, -, -, h5⟩ := iterateFail_spec parse st k
  obtain ⟨-, -, -, -, h5'⟩ := iterateFail_spec parse st (k - 1)
  rw [h100] at h5 h5'
  have hout : kthFailOutcome parse st k =
      (if (iterateFail parse st (k - 1)).socket_counter - 1 = 0 then
        SendOutcome.fatal "Connection retry limit 100 reached"
      else SendOutcome.normal) := rfl
  refine ⟨h1, h5, by omega, by omega, ?_, ?_⟩
  · rw [hout, h5']
    by_cases hc : (100 : Int) - ((k - 1 : Nat) : Int) - 1 = 0
    · rw [if_pos hc]
      have : k = 100 := by omega
      simp [this]
    · rw [if_neg hc]
      have : ¬ k = 100 := by omega
      simp [this]
  · intro hlt
    rw [hout, h5', if_neg (by omega)]

/-- Claim C2, witness: the freshly constructed client run through 100
consecutive transport failures. -/
theorem c2_retry_exhaustion_witness :
    (iterateFail noParse st0 100).received_data = st0.received_data ∧
    (iterateFail noParse st0 100).socket_counter = 100 - ((100 : Nat) : Int) ∧
    0 ≤ (iterateFail noParse st0 100).socket_counter ∧
    (iterateFail noParse st0 100).socket_counter ≤ 100 ∧
    (kthFailOutcome noParse st0 100 = SendOutcome.fatal "Connection retry limit 100 reached"
      ↔ 100 = 100) ∧
    (100 < 100 → kthFailOutcome noParse st0 100 = SendOutcome.normal) :=
  c2_retry_exhaustion noParse st0 rfl 100 (by decide) (by decide)

/-- Claim C3, counterexample: a transport success whose reply frame
fails the header precondition (first 3 bytes not zero) does NOT reset
the sample and does NOT return normally — the dpcontracts
`PreconditionError` (an `AssertionError`, not caught by
`except ValueError`) escapes `send`, with the previous sample intact. -/
theorem c3_counterexample :
    (send noParse stPrior (TransportEvent.ok [1, 2, 3, 4])).outcome
        = SendOutcome.raised PyErr.preconditionError ∧
    ¬ (send noParse stPrior (TransportEvent.ok [1, 2, 3, 4])).outcome = SendOutcome.normal ∧
    (send noParse stPrior (TransportEvent.ok [1, 2, 3, 4])).state.received_data
        = PyJson.str "prior" ∧
    ¬ empty_data stPrior.hardware
        = some ((send noParse stPrior (TransportEvent.ok [1, 2, 3, 4])).state.received_data) :=
  ⟨rfl, fun h => SendOutcome.noConfusion h, rfl,
    fun h => PyJson.noConfusion (Option.some.inj h)⟩

/-- Claim C3, amended: the recoverable-warning path applies exactly to
`json.loads` failures — when the frame passes the header check but its
decrypted text does not parse, `send` resets the sample to the empty
state (keyed to the unchanged hardware version), sets the retry counter
to 100 (the transport-success reset that already happened; the decode
failure itself does not touch it), and returns normally. -/
theorem c3_parse_failure_resets (parse : List Nat → Option PyJson) (st : HS110State)
    (reply : List Nat)
    (hhead : reply.length > 3 ∧ reply.take 3 = [0, 0, 0])
    (hparse : parse (decryptLoop hs110_key (reply.drop 4)) = none)
    (hhw : st.hardware = "h1" ∨ st.hardware = "h2") :
    ∃ d, empty_data st.hardware = some d ∧
      send parse st (TransportEvent.ok reply) =
        { outcome := SendOutcome.normal
          state := { st with received_data := d, socket_counter := SOCKET_RETRY }
          socketClosed := true } := by
  have hrecv : receive parse { st with socket_counter := SOCKET_RETRY } reply
      = Except.error (PyErr.valueError, { st with socket_counter := SOCKET_RETRY }) := by
    unfold receive
    rw [if_pos hhead, hparse]
  obtain ⟨d, hd⟩ : ∃ d, empty_data st.hardware = some d := by
    rcases hhw with h | h <;> rw [h] <;> exact ⟨_, rfl⟩
  have hrd : reset_data { st with socket_counter := SOCKET_RETRY }
      = some { st with received_data := d, socket_counter := SOCKET_RETRY } := by
    unfold reset_data
    show (empty_data st.hardware).map _ = _
    rw [hd]
    rfl
  refine ⟨d, hd, ?_⟩
  simp only [send, hrecv, hrd]

/-- Claim C3, witness: a reply with a valid zero header whose decrypted
text fails to parse, against the client holding a previous sample. -/
theorem c3_parse_failure_resets_witness :
    ∃ d, empty_data stPrior.hardware = some d ∧
      send noParse stPrior (TransportEvent.ok [0, 0, 0, 0]) =
        { outcome := SendOutcome.normal
          state := { stPrior with received_data := d, socket_counter := SOCKET_RETRY }
          socketClosed := true } :=
  c3_parse_failure_resets noParse stPrior [0, 0, 0, 0] (by decide) rfl (Or.inr rfl)

/-- Claim C4, counterexample: a 4-byte input with zero first three bytes
is NOT rejected — the `@require` only demands more than 3 bytes, so
`__decrypt` accepts it and returns the empty string. -/
theorem c4_counterexample :
    decrypt [0, 0, 0, 0] = Except.ok [] ∧
    ¬ decrypt [0, 0, 0, 0] = Except.error PyErr.preconditionError :=
  ⟨rfl, fun h => Except.noConfusion h⟩

/-- Claim C4, amended: `__decrypt` fails with `InvalidInput`
(`PreconditionError`) exactly when the input has fewer than 4 bytes or
its first 3 bytes are not all zero; in particular a 4-byte zero-headed
input is accepted (and decodes to the empty string). -/
theorem c4_header_rejection (data : List Nat) :
    decrypt data = Except.error PyErr.preconditionError ↔
      ¬ (data.length > 3 ∧ data.take 3 = [0, 0, 0]) := by
  unfold decrypt
  split
  next h => simp [h]
  next h => simp [h]

/-- Claim C5: on a transport-level failure, `send` decrements the retry
counter by exactly one and leaves the sample, the detected hardware
version, and the target host and port unchanged. -/
theorem c5_transport_failure_frame (parse : List Nat → Option PyJson) (st : HS110State) :
    (send parse st TransportEvent.sockError).state.socket_counter = st.socket_counter - 1 ∧
    (send parse st TransportEvent.sockError).state.received_data = st.received_data ∧
    (send parse st TransportEvent.sockError).state.hardware = st.hardware ∧
    (send parse st TransportEvent.sockError).state.ip = st.ip ∧
    (send parse st TransportEvent.sockError).state.port = st.port :=
  ⟨rfl, rfl, rfl, rfl, rfl⟩

/-- Claim C6: a transport success resets the retry counter to exactly
100 (`SOCKET_RETRY`), whatever the prior counter value and whatever the
subsequent decode of the reply does. -/
theorem c6_success_resets_retry (parse : List Nat → Option PyJson) (st : HS110State)
    (reply : List Nat) :
    (send parse st (TransportEvent.ok reply)).state.socket_counter = 100 := by
  have h := (receive_fields parse { st with socket_counter := SOCKET_RETRY } reply).1
  rcases hr : receive parse { st with socket_counter := SOCKET_RETRY } reply with est2 | st2
  · obtain ⟨e, st2⟩ := est2
    rw [hr] at h
    cases e
    · simp only [send, hr]
      exact h
    · cases hrd : reset_data st2 with
      | none =>
        simp only [send, hr, hrd]
        exact h
      | some st3 =>
        simp only [send, hr, hrd]
        exact (reset_fields st2 st3 hrd).1.trans h
    · simp only [send, hr]
      exact h
    · simp only [send, hr]
      exact h
  · rw [hr] at h
    simp only [send, hr]
    exact h

/-- Claim C7: on a decoded payload whose `emeter.get_realtime` value is
a JSON object, `receive` stores the payload and re-classifies the
hardware version — `h2` exactly when the object has key `current_ma`,
`h1` otherwise — overwriting whatever version was stored before. -/
theorem c7_variant_detection (parse : List Nat → Option PyJson) (st : HS110State)
    (data : List Nat) (j em : PyJson) (kvs : List (String × PyJson))
    (hhead : data.length > 3 ∧ data.take 3 = [0, 0, 0])
    (hparse : parse (decryptLoop hs110_key (data.drop 4)) = some j)
    (hem : pySubscript j "emeter" = Except.ok em)
    (hrt : pySubscript em "get_realtime" = Except.ok (PyJson.obj kvs)) :
    receive parse st data = Except.ok
      { st with
          received_data := j,
          hardware := if kvs.any (fun kv => kv.1 == "current_ma") then "h2" else "h1" } := by
  unfold receive
  rw [if_pos hhead]
  simp only [hparse, hem, hrt, pyContains]

/-- Claim C7, witness: a hardware-2 reply decoded against a client
previously classified as `h1`. -/
theorem c7_variant_detection_witness :
    receive parseH2 stH1 [0, 0, 0, 0] = Except.ok
      { stH1 with
          received_data := jH2,
          hardware := if rt2.any (fun kv => kv.1 == "current_ma") then "h2" else "h1" } :=
  c7_variant_detection parseH2 stH1 [0, 0, 0, 0] jH2
    (PyJson.obj [("get_realtime", PyJson.obj rt2)]) rt2 (by decide) rfl rfl rfl

set_option maxRecDepth 4000 in
/-- Claim C8, counterexample: for a 256-byte plaintext `__encrypt` does
NOT produce a frame with the length byte truncated mod 256 — it fails
with `ValueError` (Python `bytes([256])` is out of range). -/
theorem c8_counterexample :
    encrypt (List.replicate 256 97) = Except.error PyErr.valueError ∧
    ¬ encrypt (List.replicate 256 97)
        = Except.ok (0 :: 0 :: 0 :: 0
            :: encryptLoop hs110_key ((List.replicate 256 97).map latin1Replace)) :=
  ⟨rfl, fun h => Except.noConfusion h⟩

/-- Claim C8, amended: for a non-empty plaintext `__encrypt` prepends
the header `[0, 0, 0, length]` when the length fits one byte, and raises
`ValueError` (rather than truncating mod 256) when the length is 256 or
more. -/
theorem c8_header (s : List Nat) (h : 1 ≤ s.length) :
    encrypt s = if s.length ≤ 255 then
      Except.ok (0 :: 0 :: 0 :: s.length :: encryptLoop hs110_key (s.map latin1Replace))
    else Except.error PyErr.valueError := by
  unfold encrypt
  rw [if_neg (by omega)]
  by_cases h1 : s.length ≤ 255
  · rw [if_neg (by omega), if_pos h1]
  · rw [if_pos (by omega), if_neg h1]

/-- Claim C8, witness: the header of the one-byte plaintext "a". -/
theorem c8_header_witness :
    encrypt [97] = if ([97] : List Nat).length ≤ 255 then
      Except.ok (0 :: 0 :: 0 :: ([97] : List Nat).length
        :: encryptLoop hs110_key (([97] : List Nat).map latin1Replace))
    else Except.error PyErr.valueError :=
  c8_header [97] (by decide)

/-- Claim C9, counterexample: a `send` call that fails at transport
level returns normally (keeping last values) WITHOUT ever executing
`sock_tcp.close()` — the `socket.error` handler contains no close and
there is no `finally`. -/
theorem c9_counterexample :
    (send noParse st0 TransportEvent.sockError).socketClosed = false ∧
    (send noParse st0 TransportEvent.sockError).outcome = SendOutcome.normal :=
  ⟨rfl, rfl⟩

/-- Claim C9, amended: `send` executes `close` on every run whose
connect/send/recv sequence succeeded (including decode failures and
escaping exceptions, since `close` on line 192 precedes `receive`), but
never on a transport-level failure. -/
theorem c9_socket_close (parse : List Nat → Option PyJson) (st : HS110State)
    (reply : List Nat) :
    (send parse st (TransportEvent.ok reply)).socketClosed = true ∧
    (send parse st TransportEvent.sockError).socketClosed = false := by
  refine ⟨?_, rfl⟩
  rcases hr : receive parse { st with socket_counter := SOCKET_RETRY } reply with est2 | st2
  · obtain ⟨e, st2⟩ := est2
    cases e
    · simp only [send, hr]
    · cases hrd : reset_data st2 <;> simp only [send, hr, hrd]
    · simp only [send, hr]
    · simp only [send, hr]
  · simp only [send, hr]

/-- Claim C10: at construction and after every `reset_data`, the stored
document is the all-zero empty state keyed to the current hardware
version, and `get_data` answers 0 for each of the four logical names
without raising. -/
theorem c10_init_reset_zero (hw ip : String) (port : Int) (st : HS110State) (item : String)
    (hhw : hw = "h1" ∨ hw = "h2")
    (hport : 0 ≤ port ∧ port ≤ 65535)
    (hsthw : st.hardware = "h1" ∨ st.hardware = "h2")
    (hitem : item = "current" ∨ item = "voltage" ∨ item = "power" ∨ item = "total") :
    (HS110init hw ip port).isSome = true ∧
    (reset_data st).isSome = true ∧
    Option.map HS110State.received_data (HS110init hw ip port) = empty_data hw ∧
    Option.map HS110State.received_data (reset_data st) = empty_data st.hardware ∧
    Option.map (fun s => get_data s item) (HS110init hw ip port) = some (Except.ok 0) ∧
    Option.map (fun s => get_data s item) (reset_data st) = some (Except.ok 0) := by
  obtain ⟨d, hd⟩ : ∃ d, empty_data hw = some d := by
    rcases hhw with h | h <;> rw [h] <;> exact ⟨_, rfl⟩
  obtain ⟨d2, hd2⟩ : ∃ d2, empty_data st.hardware = some d2 := by
    rcases hsthw with h | h <;> rw [h] <;> exact ⟨_, rfl⟩
  have hinit : HS110init hw ip port = some
      { hardware := hw, received_data := d, ip := ip, port := port,
        socket_counter := SOCKET_RETRY } := by
    unfold HS110init
    rw [if_pos ⟨hhw, hport⟩, hd]
    rfl
  have hreset : reset_data st = some { st with received_data := d2 } := by
    unfold reset_data
    rw [hd2]
    rfl
  refine ⟨by rw [hinit]; rfl, by rw [hreset]; rfl, by rw [hinit, hd]; rfl,
    by rw [hreset, hd2]; rfl, ?_, ?_⟩
  · rw [hinit]
    exact congrArg some (get_data_empty_zero _ item hhw hitem hd)
  · rw [hreset]
    exact congrArg some (get_data_empty_zero _ item hsthw hitem hd2)

/-- Claim C10, witness: the default-constructed `h2` client and a reset
of the `h2` client holding a previous sample, read at `current`. -/
theorem c10_init_reset_zero_witness :
    (HS110init "h2" "192.168.1.53" 9999).isSome = true ∧
    (reset_data stPrior).isSome = true ∧
    Option.map HS110State.received_data (HS110init "h2" "192.168.1.53" 9999)
      = empty_data "h2" ∧
    Option.map HS110State.received_data (reset_data stPrior) = empty_data stPrior.hardware ∧
    Option.map (fun s => get_data s "current") (HS110init "h2" "192.168.1.53" 9999)
      = some (Except.ok 0) ∧
    Option.map (fun s => get_data s "current") (reset_data stPrior) = some (Except.ok 0) :=
  c10_init_reset_zero "h2" "192.168.1.53" 9999 stPrior "current" (Or.inr rfl)
    (by decide) (Or.inr rfl) (Or.inl rfl)

end HS110
